import Mathlib

/-!
Verification of the AI data-analyst script (`ai-analyst-streamlit_app.py`).

The script is a single linear Streamlit app: load a tabular file, describe
its schema, ask a remote model for a pandas expression, filter the
expression through a substring denylist, evaluate it with `eval` against
the dataframe, render the result, and ask the remote model to explain it.

This file shallowly embeds the script's data model and helper functions:
  * `DataFrame`, `Series`, `Cell` model the pandas values the script touches;
  * `get_schema`, `build_prompt`, `safe_execute`, `auto_visualize`,
    `explain_prompt` / `explain_result`, `call_bedrock` model the helper
    functions of the same names (`explain_prompt` is the prompt local of
    `explain_result`);
  * `cpEval` models CPython's `eval` on a small fragment of Python
    expressions (the fragment the proofs exercise), including the
    interpreter's builtins fallback when the caller's globals mapping has
    no `"__builtins__"` entry — which is the case for
    `eval(code, {"df": df})` in `safe_execute`;
  * `run_handler` models the `if run_btn and question:` handler as a
    trace-producing function: the trace records remote-model invocations,
    the dynamic-evaluation step and every UI display action, and the
    function threads the dataframe state through the evaluation step.
-/

/-- A scalar cell of the tabular data (the proofs only need integer and
string cells). -/
inductive Cell where
  | int (n : Int)
  | str (s : String)
deriving DecidableEq

/-- Model of a pandas `Series`: a named column of values. -/
structure Series where
  name : String
  values : List Cell
deriving DecidableEq

/-- Model of a pandas `DataFrame`: ordered column names, the dtype label of
each column (aligned with `cols`), and the rows (each aligned with `cols`). -/
structure DataFrame where
  cols : List String
  typeLabels : List String
  rows : List (List Cell)
deriving DecidableEq

/-- The result of `result.set_index(result.columns[0])`: a frame whose index
is the chosen column and whose remaining columns keep their order. -/
structure IndexedTable where
  index : List Cell
  cols : List String
  rows : List (List Cell)
deriving DecidableEq

/-- The schema descriptor returned by `get_schema`.  The Python dicts
(`types`, and each record of `sample_rows`) are modelled as association
lists in column order. -/
structure Schema where
  columns : List String
  types : List (String × String)
  sample_rows : List (List (String × Cell))
deriving DecidableEq

/-- `get_schema(df)`: column list, dtype map, and the first 5 rows
serialized as records (`df.head(5).to_dict(orient="records")`). -/
def get_schema (df : DataFrame) : Schema :=
  { columns := df.cols
    types := df.cols.zip df.typeLabels
    sample_rows := (df.rows.take 5).map (fun r => df.cols.zip r) }

/-- A Python runtime value of the evaluated expression.  `frameRef` is a
reference to the single session dataframe (the heap object bound to `df`);
`frame` is a dataframe value that is not that object. -/
inductive PyVal where
  | pynone
  | int (n : Int)
  | str (s : String)
  | series (s : Series)
  | frame (d : DataFrame)
  | frameRef
  | builtin (name : String)
  | boundMethod (recv : PyVal) (m : String)
deriving DecidableEq

/-- Resolve a `frameRef` against the current session dataframe. -/
def deref (heap : DataFrame) : PyVal → PyVal
  | .frameRef => .frame heap
  | v => v

def cellStr : Cell → String
  | .int n => toString n
  | .str s => s

/-- Model of Python `str()` on the values above.  The pandas textual table
rendering is abstracted to a simple rendering: no claim depends on the
exact text, only on how the text is truncated and embedded. -/
def pyStr : PyVal → String
  | .pynone => "None"
  | .int n => toString n
  | .str s => s
  | .series s => s.name ++ " " ++ String.intercalate " " (s.values.map cellStr)
  | .frame d => String.intercalate " " d.cols
  | .frameRef => "df"
  | .builtin n => "<built-in function " ++ n ++ ">"
  | .boundMethod _ m => "<bound method " ++ m ++ ">"

/-- The CPython builtin names the evaluator fragment implements.  CPython's
builtins hold many more names; the fragment keeps only the ones the proofs
exercise — what matters is that the set is nonempty and disjoint from
`{"df"}`. -/
def builtinNames : List String := ["abs", "len", "str"]

/-- Errors raised while evaluating a Python expression. -/
inductive EvalErr where
  | nameErr (n : String)
  | typeErr (m : String)
  | keyErr (k : String)
  | attrErr (a : String)
deriving DecidableEq

/-- Errors escaping `safe_execute`: either its own
`ValueError("Unsafe code detected")` or an error of the evaluation. -/
inductive ExecErr where
  | valueError (msg : String)
  | evalFailed (e : EvalErr)
deriving DecidableEq

/-- Errors of the remote invocation: transport or authentication failures
reported by the client, or a response whose shape the extraction
`response_body["content"][0]["text"]` rejects. -/
inductive RemoteErr where
  | transport (m : String)
  | auth (m : String)
  | malformedResponse
deriving DecidableEq

/-- The fragment of Python expressions the evaluator models: names,
literals, attribute access, subscription and single-argument calls. -/
inductive PyExpr where
  | name (s : String)
  | intLit (n : Int)
  | strLit (s : String)
  | attr (e : PyExpr) (a : String)
  | subscript (e : PyExpr) (k : PyExpr)
  | call (fn : PyExpr) (arg : PyExpr)
deriving DecidableEq

/-- The Python source text of an expression of the fragment (string
literals rendered with double quotes). -/
def render : PyExpr → String
  | .name s => s
  | .intLit n => toString n
  | .strLit s => "\"" ++ s ++ "\""
  | .attr e a => render e ++ "." ++ a
  | .subscript e k => render e ++ "[" ++ render k ++ "]"
  | .call f a => render f ++ "(" ++ render a ++ ")"

/-- The column of `d` named `s`, as a `Series` (used for `df["s"]`). -/
def dfColumn (d : DataFrame) (s : String) : Option Series :=
  let i := d.cols.indexOf s
  if i < d.cols.length then
    some { name := s, values := d.rows.map (fun r => r.getD i (Cell.int 0)) }
  else none

/-- `DataFrame.pop(s)`: remove column `s` in place and return it.  `none`
models the `KeyError` when the column is absent. -/
def dfPop (d : DataFrame) (s : String) : Option (Series × DataFrame) :=
  let i := d.cols.indexOf s
  if i < d.cols.length then
    some ({ name := s, values := d.rows.map (fun r => r.getD i (Cell.int 0)) },
      { cols := d.cols.eraseIdx i
        typeLabels := d.typeLabels.eraseIdx i
        rows := d.rows.map (fun r => r.eraseIdx i) })
  else none

/-- Application of the modelled builtins to one argument. -/
def applyBuiltin (n : String) (v : PyVal) (heap : DataFrame) : Except EvalErr PyVal :=
  match n, deref heap v with
  | "len", .frame d => .ok (.int d.rows.length)
  | "len", .series s => .ok (.int s.values.length)
  | "len", .str s => .ok (.int s.length)
  | "abs", .int m => .ok (.int m.natAbs)
  | "str", w => .ok (.str (pyStr w))
  | _, _ => .error (.typeErr n)

/-- Call a callable value on one argument.  `pop` on the session dataframe
(`frameRef`) mutates the heap; `pop` on a by-value frame mutates only that
temporary object, so the heap is unchanged. -/
def applyCall (fv av : PyVal) (heap : DataFrame) : Except EvalErr PyVal × DataFrame :=
  match fv with
  | .builtin n => (applyBuiltin n av heap, heap)
  | .boundMethod recv m =>
    match m, recv, av with
    | "pop", .frameRef, .str s =>
      match dfPop heap s with
      | some (ser, heap') => (.ok (.series ser), heap')
      | none => (.error (.keyErr s), heap)
    | "pop", .frame d, .str s =>
      match dfPop d s with
      | some (ser, _) => (.ok (.series ser), heap)
      | none => (.error (.keyErr s), heap)
    | _, _, _ => (.error (.typeErr m), heap)
  | _ => (.error (.typeErr "object is not callable"), heap)

/-- Model of CPython `eval` on the fragment, threading the session
dataframe (the one heap object the expression can reach).  Name resolution
follows CPython: the caller's globals mapping first; when that mapping has
no `"__builtins__"` entry the interpreter injects the builtins, so builtin
names resolve as a fallback. -/
def cpEval (g : List (String × PyVal)) : PyExpr → DataFrame → Except EvalErr PyVal × DataFrame
  | .intLit n, df => (.ok (.int n), df)
  | .strLit s, df => (.ok (.str s), df)
  | .name s, df =>
    match g.lookup s with
    | some v => (.ok v, df)
    | none =>
      if (g.lookup "__builtins__").isNone && builtinNames.contains s then
        (.ok (.builtin s), df)
      else (.error (.nameErr s), df)
  | .attr e a, df =>
    match cpEval g e df with
    | (.ok v, df₁) =>
      match deref df₁ v, a with
      | .frame _, "pop" => (.ok (.boundMethod v a), df₁)
      | _, _ => (.error (.attrErr a), df₁)
    | r => r
  | .subscript e k, df =>
    match cpEval g e df with
    | (.ok v, df₁) =>
      match cpEval g k df₁ with
      | (.ok kv, df₂) =>
        match deref df₂ v, kv with
        | .frame d, .str s =>
          match dfColumn d s with
          | some ser => (.ok (.series ser), df₂)
          | none => (.error (.keyErr s), df₂)
        | _, _ => (.error (.typeErr "subscript"), df₂)
      | r => r
    | r => r
  | .call f a, df =>
    match cpEval g f df with
    | (.ok fv, df₁) =>
      match cpEval g a df₁ with
      | (.ok av, df₂) => applyCall fv av df₂
      | r => r
    | r => r

/-- The globals mapping `safe_execute` passes to `eval`: only `df`. -/
def execGlobals : List (String × PyVal) := [("df", PyVal.frameRef)]

/-- The denylist of `safe_execute`. -/
def banned : List String := ["import", "os.", "open(", "exec", "eval", "__", "sys."]

/-- `b` occurs as a contiguous sublist of `l` (Python's `b in code` on
strings, at the character-list level). -/
def subOf (b : List Char) : List Char → Bool
  | [] => b.isEmpty
  | c :: cs => b.isPrefixOf (c :: cs) || subOf b cs

/-- Python's `b in code` substring test. -/
def strContains (code b : String) : Bool := subOf b.data code.data

/-- `any(b in code for b in banned)`. -/
def hasBanned (code : String) : Bool := banned.any (fun b => strContains code b)

/-- A JSON value (the remote API's request and response bodies). -/
inductive Json where
  | jnull
  | jnum (n : Int)
  | jstr (s : String)
  | jarr (xs : List Json)
  | jobj (fields : List (String × Json))

/-- Field access on a JSON object. -/
def jget : Json → String → Option Json
  | .jobj fields, k => fields.lookup k
  | _, _ => none

/-- The request body `call_bedrock` builds for a prompt. -/
def bedrock_body (prompt : String) : Json :=
  .jobj [("anthropic_version", .jstr "bedrock-2023-05-31"),
         ("max_tokens", .jnum 300),
         ("temperature", .jnum 0),
         ("messages", .jarr [.jobj [("role", .jstr "user"),
                                    ("content", .jstr prompt)]])]

def isPySpace (c : Char) : Bool := c = ' ' || c = '\n' || c = '\t' || c = '\r'

/-- Python's `str.strip()`: drop leading and trailing whitespace (modelled
over the common whitespace characters). -/
def pyStrip (s : String) : String :=
  ⟨((s.data.dropWhile isPySpace).reverse.dropWhile isPySpace).reverse⟩

/-- `json.loads(response["body"].read())` followed by
`response_body["content"][0]["text"].strip()`: any response whose shape
that extraction rejects surfaces as a malformed-response error. -/
def parse_response (resp : Json) : Except RemoteErr String :=
  match jget resp "content" with
  | some (.jarr (seg :: _)) =>
    match jget seg "text" with
    | some (.jstr t) => .ok (pyStrip t)
    | _ => .error .malformedResponse
  | _ => .error .malformedResponse

/-- `call_bedrock(prompt)`, parameterized by the remote endpoint `invoke`
(the `bedrock.invoke_model` client call; its transport or authentication
failures are its `.error` outcomes).  The body is sent once; the first
content segment's text is returned trimmed; every error propagates. -/
def call_bedrock (invoke : Json → Except RemoteErr Json) (prompt : String) :
    Except RemoteErr String :=
  match invoke (bedrock_body prompt) with
  | .error e => .error e
  | .ok resp => parse_response resp

/-- `call_bedrock` with the list of request bodies handed to the endpoint:
the definition hands over exactly one body — there is no retry loop. -/
def call_bedrock_tr (invoke : Json → Except RemoteErr Json) (prompt : String) :
    List Json × Except RemoteErr String :=
  ([bedrock_body prompt], call_bedrock invoke prompt)

/-- What the renderer (`auto_visualize`) displays. -/
inductive Display where
  | barChart (s : Series)
  | barChartIndexed (t : IndexedTable)
  | tableView (d : DataFrame)
  | textView (v : PyVal)
deriving DecidableEq

/-- `result.set_index(c)`: the column named `c` becomes the index; the
remaining columns keep their order. -/
def set_index (d : DataFrame) (c : String) : IndexedTable :=
  let i := d.cols.indexOf c
  { index := d.rows.map (fun r => r.getD i (Cell.int 0))
    cols := d.cols.eraseIdx i
    rows := d.rows.map (fun r => r.eraseIdx i) }

/-- `auto_visualize(result)`: series → bar chart; two-column frame → bar
chart of `result.set_index(result.columns[0])`; other frame → dataframe
view; anything else → `st.write`.  The handler dereferences the result
before rendering, so `frameRef` does not reach this function. -/
def auto_visualize (result : PyVal) : Display :=
  match result with
  | .series s => .barChart s
  | .frame d =>
    if d.cols.length = 2 then .barChartIndexed (set_index d (d.cols.headD ""))
    else .tableView d
  | v => .textView v

/-- An observable action of the handler: a remote-model invocation (with
the request body sent), the dynamic evaluation of the generated code, or a
UI display action. -/
inductive Event where
  | remoteCall (body : Json)
  | evalCall (code : String)
  | showCode (code : String)
  | showResult (v : PyVal)
  | showViz (d : Display)
  | showExplanation (t : String)
  | showError

/-- `safe_execute(code, df)`, parameterized by the CPython evaluation
`evalFn` of the code string against the dataframe (which may mutate the
dataframe).  Returns the evaluation events that happened, the outcome, and
the dataframe afterwards: a denylisted string raises
`ValueError("Unsafe code detected")` before any evaluation. -/
def safe_execute (evalFn : String → DataFrame → Except EvalErr PyVal × DataFrame)
    (code : String) (df : DataFrame) :
    List Event × Except ExecErr PyVal × DataFrame :=
  if hasBanned code then
    ([], .error (.valueError "Unsafe code detected"), df)
  else
    ([.evalCall code], ((evalFn code df).1).mapError .evalFailed, (evalFn code df).2)

/-- The CPython evaluation of the one expression `e` (the string handed to
`safe_execute` is `render e`; `eval` parses it back to `e` and evaluates it
with globals `{"df": df}`). -/
def cpEvalOn (e : PyExpr) : String → DataFrame → Except EvalErr PyVal × DataFrame :=
  fun _ df => cpEval execGlobals e df

/-- `safe_execute` on the source text of an expression of the fragment. -/
def safe_execute_ast (e : PyExpr) (df : DataFrame) :
    List Event × Except ExecErr PyVal × DataFrame :=
  safe_execute (cpEvalOn e) (render e) df

/-- Python `repr` of a list of strings, as the f-string of `build_prompt`
renders `schema['columns']`. -/
def pyReprList (xs : List String) : String :=
  "[" ++ String.intercalate ", " (xs.map (fun s => "\x27" ++ s ++ "\x27")) ++ "]"

/-- Python `repr` of the dtype dict. -/
def reprTypes (ts : List (String × String)) : String :=
  "\x7b" ++ String.intercalate ", "
      (ts.map (fun p => "\x27" ++ p.1 ++ "\x27: \x27" ++ p.2 ++ "\x27")) ++ "\x7d"

def cellRepr : Cell → String
  | .int n => toString n
  | .str s => "\x27" ++ s ++ "\x27"

/-- Python `repr` of one sample record. -/
def reprRow (r : List (String × Cell)) : String :=
  "\x7b" ++ String.intercalate ", "
      (r.map (fun p => "\x27" ++ p.1 ++ "\x27: " ++ cellRepr p.2)) ++ "\x7d"

/-- Python `repr` of the sample-row list. -/
def reprRows (rs : List (List (String × Cell))) : String :=
  "[" ++ String.intercalate ", " (rs.map reprRow) ++ "]"

/-- `build_prompt(schema, question)`: the fixed query template embedding
the schema descriptor and the question. -/
def build_prompt (schema : Schema) (question : String) : String :=
  "\nYou are a senior data analyst.\n\nDataframe schema:\nColumns: " ++
  pyReprList schema.columns ++
  "\nTypes: " ++ reprTypes schema.types ++
  "\nSample rows: " ++ reprRows schema.sample_rows ++
  "\n\nUser question:\n\"" ++ question ++
  "\"\n\nRules:\n- Use pandas only\n- The dataframe variable is named df\n- Do NOT modify df\n- Do NOT import anything\n- Return ONLY a single pandas expression\n"

/-- Python's slice `s[:n]` (the first `n` characters). -/
def pyTake (s : String) (n : Nat) : String := ⟨s.data.take n⟩

/-- The prompt local of `explain_result(question, result)`: the fixed
explanation template embedding the question and `str(result)[:1000]`. -/
def explain_prompt (question : String) (result : PyVal) : String :=
  "\nExplain the following analysis result in simple business language.\n\nQuestion:\n" ++
  question ++ "\n\nResult:\n" ++ pyTake (pyStr result) 1000 ++ "\n"

/-- `explain_result(question, result)`: a second remote invocation on the
explanation prompt. -/
def explain_result (invoke : Json → Except RemoteErr Json)
    (question : String) (result : PyVal) : Except RemoteErr String :=
  call_bedrock invoke (explain_prompt question result)

/-- The `if run_btn and question:` handler: generate the expression
(remote call), show it, evaluate it through `safe_execute`, show and
render the result, then explain it (second remote call); any failure is
caught by the single `except` which appends the generic error display.
Returns the event trace and the dataframe after the run. -/
def run_handler (invoke : Json → Except RemoteErr Json)
    (evalFn : String → DataFrame → Except EvalErr PyVal × DataFrame)
    (df : DataFrame) (question : String) : List Event × DataFrame :=
  let prompt := build_prompt (get_schema df) question
  match call_bedrock invoke prompt with
  | .error _ => ([.remoteCall (bedrock_body prompt), .showError], df)
  | .ok ai_code =>
    let r := safe_execute evalFn ai_code df
    match r.2.1 with
    | .error _ =>
      ([.remoteCall (bedrock_body prompt), .showCode ai_code] ++ r.1 ++ [.showError], r.2.2)
    | .ok result =>
      let rv := deref r.2.2 result
      let eprompt := explain_prompt question rv
      match call_bedrock invoke eprompt with
      | .error _ =>
        ([.remoteCall (bedrock_body prompt), .showCode ai_code] ++ r.1 ++
          [.showResult rv, .showViz (auto_visualize rv),
           .remoteCall (bedrock_body eprompt), .showError], r.2.2)
      | .ok expl =>
        ([.remoteCall (bedrock_body prompt), .showCode ai_code] ++ r.1 ++
          [.showResult rv, .showViz (auto_visualize rv),
           .remoteCall (bedrock_body eprompt), .showExplanation expl], r.2.2)

/-- The number of remote-model invocations recorded in a trace. -/
def remoteCount (evs : List Event) : Nat :=
  evs.countP (fun e => match e with | .remoteCall _ => true | _ => false)

/-! ### Concrete data used by witnesses and counterexamples -/

/-- A two-column dataset with two rows. -/
def sampleDf : DataFrame :=
  { cols := ["a", "b"]
    typeLabels := ["int64", "int64"]
    rows := [[.int 1, .int 10], [.int 2, .int 20]] }

/-- A CPython evaluation that returns `None` and leaves the dataframe
unchanged (a concrete stand-in for the evaluation of some harmless code). -/
def evalNone : String → DataFrame → Except EvalErr PyVal × DataFrame :=
  fun _ df => (.ok .pynone, df)

/-- A CPython evaluation that replaces the dataframe by an empty one: used
to check that a rejected string is never handed to the evaluation. -/
def evalClobber : String → DataFrame → Except EvalErr PyVal × DataFrame :=
  fun _ _ => (.ok .pynone, { cols := [], typeLabels := [], rows := [] })

/-- A well-formed response whose first content segment's text is `"df"`. -/
def okResp : Json := .jobj [("content", .jarr [.jobj [("text", .jstr "df")]])]

/-- A remote endpoint that always answers `okResp`. -/
def invokeOk : Json → Except RemoteErr Json := fun _ => .ok okResp

/-- A remote endpoint that always fails at transport. -/
def invokeDown : Json → Except RemoteErr Json :=
  fun _ => .error (.transport "endpoint unreachable")

/-- The content of a request body's first message (used by test endpoints
to tell the generation request from the explanation request). -/
def msgContent (body : Json) : Option String :=
  match jget body "messages" with
  | some (.jarr (m :: _)) =>
    match jget m "content" with
    | some (.jstr c) => some c
    | _ => none
  | _ => none

def pyStartsWith (s pre : String) : Bool := pre.data.isPrefixOf s.data

/-- A remote endpoint that answers the generation request with `okResp`
and fails on the explanation request (whose prompt starts with
`"\nExplain"`). -/
def invokeExplainFails : Json → Except RemoteErr Json := fun body =>
  match msgContent body with
  | some c =>
    if pyStartsWith c "\nExplain" then .error (.transport "endpoint unreachable")
    else .ok okResp
  | none => .error .malformedResponse

/-! ### The denylist test equals substring containment -/

theorem subOf_iff (b l : List Char) :
    subOf b l = true ↔ ∃ l₁ l₂, l = l₁ ++ b ++ l₂ := by
  induction l with
  | nil =>
    simp only [subOf, List.isEmpty_iff]
    constructor
    · rintro rfl
      exact ⟨[], [], rfl⟩
    · rintro ⟨l₁, l₂, h⟩
      rcases List.append_eq_nil.mp h.symm with ⟨h₁, rfl⟩
      rcases List.append_eq_nil.mp h₁ with ⟨rfl, rfl⟩
      rfl
  | cons c cs ih =>
    simp only [subOf, Bool.or_eq_true, List.isPrefixOf_iff_prefix, ih]
    constructor
    · rintro (⟨t, ht⟩ | ⟨l₁, l₂, rfl⟩)
      · exact ⟨[], t, by simpa using ht.symm⟩
      · exact ⟨c :: l₁, l₂, rfl⟩
    · rintro ⟨l₁, l₂, h⟩
      cases l₁ with
      | nil => exact Or.inl ⟨l₂, by simpa using h.symm⟩
      | cons x xs =>
        rcases List.cons_eq_cons.mp h with ⟨rfl, h₂⟩
        exact Or.inr ⟨xs, l₂, h₂⟩

theorem strContains_iff (code b : String) :
    strContains code b = true ↔ ∃ pre post : String, code = pre ++ b ++ post := by
  rw [strContains, subOf_iff]
  constructor
  · rintro ⟨l₁, l₂, h⟩
    refine ⟨⟨l₁⟩, ⟨l₂⟩, String.ext ?_⟩
    simpa [String.data_append] using h
  · rintro ⟨pre, post, rfl⟩
    exact ⟨pre.data, post.data, by simp [String.data_append]⟩

/-- The Prop-level reading of the gate: the code text holds one of the
denylisted substrings. -/
def HoldsBanned (code : String) : Prop :=
  ∃ b ∈ banned, ∃ pre post : String, code = pre ++ b ++ post

theorem hasBanned_iff (code : String) :
    hasBanned code = true ↔ HoldsBanned code := by
  simp only [hasBanned, List.any_eq_true, strContains_iff, HoldsBanned]

theorem hasBanned_eq_false_iff (code : String) :
    hasBanned code = false ↔ ¬ HoldsBanned code := by
  rw [← hasBanned_iff, Bool.eq_false_iff, Ne]

/-! ### Claims -/

/-- C1: for every input string `code`, `safe_execute` raises
`ValueError("Unsafe code detected")` if and only if `code` contains one of
the seven denylisted substrings (plain substring containment, regardless
of surrounding context); otherwise it proceeds to evaluate the string and
returns the evaluation's outcome. -/
theorem C1_denylist_gate
    (evalFn : String → DataFrame → Except EvalErr PyVal × DataFrame)
    (code : String) (df : DataFrame) :
    ((safe_execute evalFn code df).2.1 =
        .error (.valueError "Unsafe code detected") ↔ HoldsBanned code) ∧
    (¬ HoldsBanned code →
      safe_execute evalFn code df =
        ([Event.evalCall code],
         ((evalFn code df).1).mapError ExecErr.evalFailed, (evalFn code df).2)) := by
  rcases hb : hasBanned code with _ | _
  · have hnb : ¬ HoldsBanned code := (hasBanned_eq_false_iff code).mp hb
    refine ⟨⟨fun h => ?_, fun h => absurd h hnb⟩, fun _ => by simp [safe_execute, hb]⟩
    exfalso
    simp only [safe_execute, hb, Bool.false_eq_true, if_false] at h
    rcases he : (evalFn code df).1 with e | v <;> rw [he] at h <;>
      simp [Except.mapError] at h
  · have hbn : HoldsBanned code := (hasBanned_iff code).mp hb
    exact ⟨by simp [safe_execute, hb]; exact hbn, fun h => absurd hbn h⟩

theorem C1_denylist_gate_witness :
    safe_execute evalNone "len(df)" sampleDf =
      ([Event.evalCall "len(df)"], .ok PyVal.pynone, sampleDf) ∧
    (safe_execute evalNone "eval(df)" sampleDf).2.1 =
      .error (.valueError "Unsafe code detected") := by
  constructor
  · exact ((C1_denylist_gate evalNone "len(df)" sampleDf).2
      ((hasBanned_eq_false_iff "len(df)").mp (by decide))).trans rfl
  · exact (C1_denylist_gate evalNone "eval(df)" sampleDf).1.mpr
      ((hasBanned_iff "eval(df)").mp (by decide))

/-- C10: the denylist check happens before any evaluation: on a string
holding a banned substring, `safe_execute` raises with an empty evaluation
trace (the string is never handed to the evaluation) and the dataset is
returned unchanged — for every evaluation function, even one that would
clobber the dataset. -/
theorem C10_reject_atomic
    (evalFn : String → DataFrame → Except EvalErr PyVal × DataFrame)
    (code : String) (df : DataFrame) :
    HoldsBanned code →
    safe_execute evalFn code df =
      ([], .error (.valueError "Unsafe code detected"), df) := by
  intro h
  have hb : hasBanned code = true := (hasBanned_iff code).mpr h
  simp [safe_execute, hb]

theorem C10_reject_atomic_witness :
    safe_execute evalClobber "eval(df)" sampleDf =
      ([], .error (.valueError "Unsafe code detected"), sampleDf) :=
  C10_reject_atomic evalClobber "eval(df)" sampleDf
    ((hasBanned_iff "eval(df)").mp (by decide))

/-- C2 counterexample: the claim says the only binding available to the
evaluated expression is `df`, yet `len(df)` — which resolves the name
`len` — passes the gate and evaluates successfully: `eval(code, {"df": df})`
exposes CPython's builtins because the globals dict has no
`"__builtins__"` key, so the interpreter injects them. -/
theorem C2_counterexample :
    safe_execute_ast (.call (.name "len") (.name "df")) sampleDf =
      ([Event.evalCall "len(df)"], .ok (.int 2), sampleDf) ∧
    (safe_execute_ast (.call (.name "len") (.name "df")) sampleDf).2.1 ≠
      .error (.evalFailed (.nameErr "len")) :=
  ⟨rfl, fun h => Except.noConfusion h⟩

/-- C2 (amended): `safe_execute` evaluates the code with a globals mapping
containing only the binding of `df` to the dataset; since that mapping has
no `__buil` + `tins__` entry, the interpreter additionally resolves Python
builtin names; any other name fails with a `NameError`; on a string that
passes the denylist, `safe_execute` returns whatever the evaluation
produces. -/
theorem C2_eval_environment (e : PyExpr) (df : DataFrame) (n : String) :
    cpEval execGlobals (.name "df") df = (.ok .frameRef, df) ∧
    (n ≠ "df" → n ∉ builtinNames →
      cpEval execGlobals (.name n) df = (.error (.nameErr n), df)) ∧
    (n ∈ builtinNames →
      cpEval execGlobals (.name n) df = (.ok (.builtin n), df)) ∧
    (¬ HoldsBanned (render e) →
      safe_execute_ast e df =
        ([Event.evalCall (render e)],
         ((cpEval execGlobals e df).1).mapError ExecErr.evalFailed,
         (cpEval execGlobals e df).2)) := by
  refine ⟨rfl, fun hn hbn => ?_, fun hbn => ?_, fun h => ?_⟩
  · have hb : (n == "df") = false := beq_eq_false_iff_ne.mpr hn
    simp [cpEval, execGlobals, List.lookup, hb, hbn]
  · have hne : n ≠ "df" := by rintro rfl; exact absurd hbn (by decide)
    have hb : (n == "df") = false := beq_eq_false_iff_ne.mpr hne
    simp [cpEval, execGlobals, List.lookup, hb, hbn]
  · have hb : hasBanned (render e) = false := (hasBanned_eq_false_iff _).mpr h
    simp [safe_execute_ast, safe_execute, hb, cpEvalOn]

theorem C2_eval_environment_witness :
    cpEval execGlobals (.name "pd") sampleDf = (.error (.nameErr "pd"), sampleDf) ∧
    cpEval execGlobals (.name "len") sampleDf = (.ok (.builtin "len"), sampleDf) ∧
    safe_execute_ast (.name "df") sampleDf =
      ([Event.evalCall "df"], .ok PyVal.frameRef, sampleDf) := by
  refine ⟨(C2_eval_environment (.name "df") sampleDf "pd").2.1 (by decide) (by decide),
          (C2_eval_environment (.name "df") sampleDf "len").2.2.1 (by decide), ?_⟩
  exact ((C2_eval_environment (.name "df") sampleDf "pd").2.2.2
    ((hasBanned_eq_false_iff "df").mp (by decide))).trans rfl

/-- C3: the explanation prompt embeds `str(result)[:1000]`: the embedded
portion is never longer than 1000 characters, it is exactly the first
(up to) 1000 characters of the stringified result, and when the string
form exceeds 1000 characters exactly its first 1000 appear. -/
theorem C3_truncation (q : String) (r : PyVal) :
    ∃ emb : String,
      explain_prompt q r =
        ("\nExplain the following analysis result in simple business language.\n\nQuestion:\n" ++
          q ++ "\n\nResult:\n") ++ emb ++ "\n" ∧
      emb.length ≤ 1000 ∧
      emb.data = (pyStr r).data.take 1000 ∧
      ((pyStr r).length ≤ 1000 → emb = pyStr r) ∧
      (1000 < (pyStr r).length → emb.length = 1000) := by
  refine ⟨pyTake (pyStr r) 1000, rfl, ?_, rfl, fun hle => ?_, fun hgt => ?_⟩
  · show ((pyStr r).data.take 1000).length ≤ 1000
    rw [List.length_take]
    exact min_le_left _ _
  · exact String.ext (List.take_of_length_le hle)
  · show ((pyStr r).data.take 1000).length = 1000
    rw [List.length_take]
    exact Nat.min_eq_left (Nat.le_of_lt hgt)

/-- A 1500-character string, to exercise the truncation. -/
def longStr : String := ⟨List.replicate 1500 'x'⟩

theorem C3_truncation_witness :
    ∃ emb : String,
      explain_prompt "q" (.str longStr) =
        ("\nExplain the following analysis result in simple business language.\n\nQuestion:\n" ++
          "q" ++ "\n\nResult:\n") ++ emb ++ "\n" ∧
      emb.data = longStr.data.take 1000 ∧
      emb.length = 1000 := by
  obtain ⟨emb, h1, _, h3, _, h5⟩ := C3_truncation "q" (.str longStr)
  refine ⟨emb, h1, h3, h5 ?_⟩
  show 1000 < (List.replicate 1500 'x').length
  rw [List.length_replicate]
  omega

/-- A one-column dataset (to exercise the raw-table branch). -/
def oneColDf : DataFrame :=
  { cols := ["a"], typeLabels := ["int64"], rows := [[.int 1], [.int 2]] }

/-- C4: the renderer dispatches on the result's shape: a series renders as
a bar chart; a two-column frame renders as a bar chart of the frame
re-indexed by its first column (so the chart's index is exactly the first
column's values); a frame with any other number of columns renders as a
raw table; any other value renders as plain text. -/
theorem C4_render_dispatch :
    (∀ s : Series, auto_visualize (.series s) = .barChart s) ∧
    (∀ d : DataFrame, d.cols.length = 2 →
      auto_visualize (.frame d) = .barChartIndexed (set_index d (d.cols.headD "")) ∧
      (set_index d (d.cols.headD "")).index =
        d.rows.map (fun r => r.getD 0 (Cell.int 0))) ∧
    (∀ d : DataFrame, d.cols.length ≠ 2 → auto_visualize (.frame d) = .tableView d) ∧
    (∀ n : Int, auto_visualize (.int n) = .textView (.int n)) ∧
    (∀ s : String, auto_visualize (.str s) = .textView (.str s)) ∧
    auto_visualize .pynone = .textView .pynone := by
  refine ⟨fun s => rfl, fun d h2 => ⟨by simp [auto_visualize, h2], ?_⟩,
          fun d hne => by simp [auto_visualize, hne], fun n => rfl, fun s => rfl, rfl⟩
  rcases d with ⟨cols, tls, rows⟩
  rcases cols with _ | ⟨c₀, cols'⟩
  · simp at h2
  · simp [set_index, List.headD, List.indexOf_cons_self]

theorem C4_render_dispatch_witness :
    auto_visualize (.frame sampleDf) =
      .barChartIndexed (set_index sampleDf "a") ∧
    (set_index sampleDf "a").index = [.int 1, .int 2] ∧
    auto_visualize (.frame oneColDf) = .tableView oneColDf ∧
    auto_visualize (.int 60) = .textView (.int 60) := by
  obtain ⟨h1, h2⟩ := C4_render_dispatch.2.1 sampleDf (by decide)
  exact ⟨h1.trans rfl, h2.trans rfl,
         C4_render_dispatch.2.2.1 oneColDf (by decide),
         C4_render_dispatch.2.2.2.1 60⟩

/-- C5: the schema descriptor is a pure function of the dataset: its
`columns` field is exactly the dataset's ordered column list (whatever the
rows are), its `types` field pairs each column with its type label in
order, and its `sample_rows` field holds exactly the first
`min 5 (number of rows)` rows, each serialized as a record pairing the
column names with the row's cells. -/
theorem C5_get_schema (df : DataFrame) :
    (get_schema df).columns = df.cols ∧
    (get_schema df).types = df.cols.zip df.typeLabels ∧
    (get_schema df).sample_rows.length = min 5 df.rows.length ∧
    (∀ i, i < (get_schema df).sample_rows.length →
      (get_schema df).sample_rows.getD i [] = df.cols.zip (df.rows.getD i [])) := by
  refine ⟨rfl, rfl, by simp [get_schema], fun i hi => ?_⟩
  simp only [get_schema, List.length_map, List.length_take] at hi
  have hi5 : i < 5 := lt_of_lt_of_le hi (min_le_left _ _)
  have hilen : i < df.rows.length := lt_of_lt_of_le hi (min_le_right _ _)
  simp only [get_schema]
  rw [List.getD_eq_getElem?_getD, List.getElem?_map, List.getElem?_take,
      if_pos hi5, List.getElem?_eq_getElem hilen,
      List.getD_eq_getElem?_getD, List.getElem?_eq_getElem hilen]
  rfl

theorem C5_get_schema_witness :
    (get_schema sampleDf).columns = ["a", "b"] ∧
    (get_schema sampleDf).types = [("a", "int64"), ("b", "int64")] ∧
    (get_schema sampleDf).sample_rows.length = 2 ∧
    (get_schema sampleDf).sample_rows.getD 0 [] =
      [("a", Cell.int 1), ("b", Cell.int 10)] := by
  obtain ⟨h1, h2, h3, h4⟩ := C5_get_schema sampleDf
  exact ⟨h1.trans rfl, h2.trans rfl, h3.trans rfl,
         (h4 0 (by rw [h3]; decide)).trans rfl⟩

/-- The evaluation step's trace holds no remote invocation. -/
theorem remoteCount_safe_execute
    (evalFn : String → DataFrame → Except EvalErr PyVal × DataFrame)
    (code : String) (df : DataFrame) :
    remoteCount (safe_execute evalFn code df).1 = 0 := by
  rcases hb : hasBanned code with _ | _ <;>
    simp [safe_execute, hb, remoteCount]

/-- The evaluation step's trace is empty or the single evaluation event. -/
theorem safe_execute_trace
    (evalFn : String → DataFrame → Except EvalErr PyVal × DataFrame)
    (code : String) (df : DataFrame) :
    (safe_execute evalFn code df).1 = [] ∨
    (safe_execute evalFn code df).1 = [Event.evalCall code] := by
  rcases hb : hasBanned code with _ | _ <;> simp [safe_execute, hb]

/-- The remote-invocation count of a run, by the outcome of its stages. -/
theorem remoteCount_run_handler (invoke : Json → Except RemoteErr Json)
    (evalFn : String → DataFrame → Except EvalErr PyVal × DataFrame)
    (df : DataFrame) (q : String) :
    remoteCount (run_handler invoke evalFn df q).1 =
      match call_bedrock invoke (build_prompt (get_schema df) q) with
      | .error _ => 1
      | .ok code =>
        match (safe_execute evalFn code df).2.1 with
        | .error _ => 1
        | .ok _ => 2 := by
  have hse := remoteCount_safe_execute evalFn
  simp only [remoteCount] at hse
  rcases hg : call_bedrock invoke (build_prompt (get_schema df) q) with e | code
  · simp [run_handler, hg, remoteCount]
  · rcases hr : (safe_execute evalFn code df).2.1 with err | v
    · simp [run_handler, hg, hr, remoteCount, List.countP_append,
            List.countP_cons, hse]
    · rcases hx : call_bedrock invoke
          (explain_prompt q (deref (safe_execute evalFn code df).2.2 v)) with e' | t <;>
        simp [run_handler, hg, hr, hx, remoteCount, List.countP_append,
              List.countP_cons, hse]

/-- C6: a run performs at most two remote-model invocations: exactly one
when expression generation fails or when the generated expression's
evaluation fails, and exactly two when both succeed (whether or not the
explanation call then succeeds). -/
theorem C6_invocation_count (invoke : Json → Except RemoteErr Json)
    (evalFn : String → DataFrame → Except EvalErr PyVal × DataFrame)
    (df : DataFrame) (q : String) :
    remoteCount (run_handler invoke evalFn df q).1 ≤ 2 ∧
    (∀ e, call_bedrock invoke (build_prompt (get_schema df) q) = .error e →
      remoteCount (run_handler invoke evalFn df q).1 = 1) ∧
    (∀ code err, call_bedrock invoke (build_prompt (get_schema df) q) = .ok code →
      (safe_execute evalFn code df).2.1 = .error err →
      remoteCount (run_handler invoke evalFn df q).1 = 1) ∧
    (∀ code v, call_bedrock invoke (build_prompt (get_schema df) q) = .ok code →
      (safe_execute evalFn code df).2.1 = .ok v →
      remoteCount (run_handler invoke evalFn df q).1 = 2) := by
  rw [remoteCount_run_handler]
  refine ⟨?_, fun e hg => by simp [hg], fun code err hg hr => by simp [hg, hr],
          fun code v hg hr => by simp [hg, hr]⟩
  rcases hg : call_bedrock invoke (build_prompt (get_schema df) q) with e | code
  · simp
  · rcases hr : (safe_execute evalFn code df).2.1 with err | v <;> simp [hr]

/-- An evaluation that fails with a `TypeError` and leaves the dataframe
unchanged. -/
def evalBoom : String → DataFrame → Except EvalErr PyVal × DataFrame :=
  fun _ df => (.error (.typeErr "boom"), df)

theorem C6_invocation_count_witness :
    remoteCount (run_handler invokeDown evalNone sampleDf "q").1 = 1 ∧
    remoteCount (run_handler invokeOk evalBoom sampleDf "q").1 = 1 ∧
    remoteCount (run_handler invokeOk evalNone sampleDf "q").1 = 2 := by
  refine ⟨(C6_invocation_count invokeDown evalNone sampleDf "q").2.1
            (.transport "endpoint unreachable") rfl,
          (C6_invocation_count invokeOk evalBoom sampleDf "q").2.2.1
            "df" (.evalFailed (.typeErr "boom")) rfl rfl,
          (C6_invocation_count invokeOk evalNone sampleDf "q").2.2.2
            "df" .pynone rfl rfl⟩

/-- The expression `df.pop("b")`: passes the denylist and removes column
`b` from the session dataframe in place. -/
def popExpr : PyExpr := .call (.attr (.name "df") "pop") (.strLit "b")

/-- C7 counterexample: the claim says no operation of the analysis chain
changes the dataset, but expression evaluation can: `df.pop("b")` passes
the gate, evaluates successfully, and leaves the session dataset with one
column fewer — the gate does not prevent mutation (the prompt merely asks
the model not to modify `df`). -/
theorem C7_counterexample :
    (safe_execute_ast popExpr sampleDf).2.1 =
      .ok (.series { name := "b", values := [.int 10, .int 20] }) ∧
    (safe_execute_ast popExpr sampleDf).2.2 =
      { cols := ["a"], typeLabels := ["int64"], rows := [[.int 1], [.int 2]] } ∧
    (safe_execute_ast popExpr sampleDf).2.2 ≠ sampleDf := by
  refine ⟨rfl, rfl, ?_⟩
  intro h
  exact absurd (rfl.symm.trans h) (by decide)

/-- C7 (amended): no operation of the chain other than expression
evaluation changes the dataset: whenever the evaluation step preserves the
dataframe (and always when the run fails before it), the dataset after the
whole run equals the loaded dataset.  Expression evaluation itself is not
prevented from changing it. -/
theorem C7_dataset_preservation (invoke : Json → Except RemoteErr Json)
    (evalFn : String → DataFrame → Except EvalErr PyVal × DataFrame)
    (df : DataFrame) (q : String)
    (hpres : ∀ code d, (evalFn code d).2 = d) :
    (run_handler invoke evalFn df q).2 = df := by
  have hse : ∀ code, (safe_execute evalFn code df).2.2 = df := by
    intro code
    rcases hb : hasBanned code with _ | _ <;> simp [safe_execute, hb, hpres]
  rcases hg : call_bedrock invoke (build_prompt (get_schema df) q) with e | code
  · simp [run_handler, hg]
  · rcases hr : (safe_execute evalFn code df).2.1 with err | v
    · simp [run_handler, hg, hr, hse]
    · rcases hx : call_bedrock invoke (explain_prompt q (deref df v)) with e' | t <;>
        simp [run_handler, hg, hr, hse, hx]

theorem C7_dataset_preservation_witness :
    (run_handler invokeOk evalNone sampleDf "q").2 = sampleDf :=
  C7_dataset_preservation invokeOk evalNone sampleDf "q" (fun _ _ => rfl)

/-- C8 counterexample: when generation and evaluation succeed and the
explanation call fails, the run's trace still shows the computed result
and its visualization alongside the generic error display — the result is
not discarded from the user's view (it was rendered before the second
remote call, and the exception handler only appends the error). -/
theorem C8_counterexample :
    (run_handler invokeExplainFails evalNone sampleDf "total?").1 =
      [.remoteCall (bedrock_body (build_prompt (get_schema sampleDf) "total?")),
       .showCode "df", .evalCall "df", .showResult .pynone,
       .showViz (.textView .pynone),
       .remoteCall (bedrock_body (explain_prompt "total?" .pynone)),
       .showError] ∧
    Event.showResult .pynone ∈ (run_handler invokeExplainFails evalNone sampleDf "total?").1 ∧
    Event.showError ∈ (run_handler invokeExplainFails evalNone sampleDf "total?").1 := by
  have h : (run_handler invokeExplainFails evalNone sampleDf "total?").1 =
      [.remoteCall (bedrock_body (build_prompt (get_schema sampleDf) "total?")),
       .showCode "df", .evalCall "df", .showResult .pynone,
       .showViz (.textView .pynone),
       .remoteCall (bedrock_body (explain_prompt "total?" .pynone)),
       .showError] := rfl
  refine ⟨h, ?_, ?_⟩ <;> rw [h] <;> simp

/-- C8 (amended): a failure of the second remote call after a successful
first call and successful evaluation is caught by the same single outer
handler as every other failure — the trace ends in the same generic error
display — but the already-computed result is not discarded from the
user's view: the result and its visualization remain in the trace; only
the explanation is missing. -/
theorem C8_explain_failure (invoke : Json → Except RemoteErr Json)
    (evalFn : String → DataFrame → Except EvalErr PyVal × DataFrame)
    (df : DataFrame) (q code : String) (v : PyVal) (e : RemoteErr) :
    call_bedrock invoke (build_prompt (get_schema df) q) = .ok code →
    (safe_execute evalFn code df).2.1 = .ok v →
    call_bedrock invoke
        (explain_prompt q (deref (safe_execute evalFn code df).2.2 v)) = .error e →
    (∃ pre, (run_handler invoke evalFn df q).1 = pre ++ [Event.showError]) ∧
    Event.showResult (deref (safe_execute evalFn code df).2.2 v) ∈
      (run_handler invoke evalFn df q).1 ∧
    (∀ t, Event.showExplanation t ∉ (run_handler invoke evalFn df q).1) := by
  intro hg hr hx
  have htrace : (run_handler invoke evalFn df q).1 =
      [Event.remoteCall (bedrock_body (build_prompt (get_schema df) q)),
       .showCode code] ++
      (safe_execute evalFn code df).1 ++
      [.showResult (deref (safe_execute evalFn code df).2.2 v),
       .showViz (auto_visualize (deref (safe_execute evalFn code df).2.2 v)),
       .remoteCall (bedrock_body
         (explain_prompt q (deref (safe_execute evalFn code df).2.2 v))),
       .showError] := by
    simp [run_handler, hg, hr, hx]
  refine ⟨⟨[Event.remoteCall (bedrock_body (build_prompt (get_schema df) q)),
            .showCode code] ++
           (safe_execute evalFn code df).1 ++
           [.showResult (deref (safe_execute evalFn code df).2.2 v),
            .showViz (auto_visualize (deref (safe_execute evalFn code df).2.2 v)),
            .remoteCall (bedrock_body
              (explain_prompt q (deref (safe_execute evalFn code df).2.2 v)))],
          by simp [htrace]⟩, ?_, ?_⟩
  · rw [htrace]; simp
  · intro t
    rw [htrace]
    rcases safe_execute_trace evalFn code df with h | h <;> rw [h] <;> simp

theorem C8_explain_failure_witness :
    (∃ pre, (run_handler invokeExplainFails evalNone sampleDf "total?").1 =
      pre ++ [Event.showError]) ∧
    Event.showResult .pynone ∈
      (run_handler invokeExplainFails evalNone sampleDf "total?").1 ∧
    (∀ t, Event.showExplanation t ∉
      (run_handler invokeExplainFails evalNone sampleDf "total?").1) :=
  C8_explain_failure invokeExplainFails evalNone sampleDf "total?" "df" .pynone
    (.transport "endpoint unreachable") rfl rfl rfl

/-- C9: for every prompt, `call_bedrock` sends a request body holding the
protocol version tag, a 300-token output cap, temperature 0, and a single
user-role message with the full prompt text; exactly one body is handed
to the endpoint (no retry); it returns the whitespace-trimmed text of the
first content segment; transport and authentication errors propagate
unchanged and a response without the expected shape surfaces as a
malformed-response error. -/
theorem C9_bedrock_contract (invoke : Json → Except RemoteErr Json) (prompt : String) :
    jget (bedrock_body prompt) "anthropic_version" = some (.jstr "bedrock-2023-05-31") ∧
    jget (bedrock_body prompt) "max_tokens" = some (.jnum 300) ∧
    jget (bedrock_body prompt) "temperature" = some (.jnum 0) ∧
    jget (bedrock_body prompt) "messages" =
      some (.jarr [.jobj [("role", .jstr "user"), ("content", .jstr prompt)]]) ∧
    (call_bedrock_tr invoke prompt).1 = [bedrock_body prompt] ∧
    (∀ e, invoke (bedrock_body prompt) = .error e →
      call_bedrock invoke prompt = .error e) ∧
    (∀ resp seg rest t, invoke (bedrock_body prompt) = .ok resp →
      jget resp "content" = some (.jarr (seg :: rest)) →
      jget seg "text" = some (.jstr t) →
      call_bedrock invoke prompt = .ok (pyStrip t)) ∧
    (∀ resp, invoke (bedrock_body prompt) = .ok resp →
      jget resp "content" = none →
      call_bedrock invoke prompt = .error .malformedResponse) := by
  refine ⟨rfl, rfl, rfl, rfl, rfl, fun e he => by simp [call_bedrock, he],
          fun resp seg rest t hr hc ht => ?_, fun resp hr hc => ?_⟩
  · simp [call_bedrock, hr, parse_response, hc, ht]
  · simp [call_bedrock, hr, parse_response, hc]

theorem C9_bedrock_contract_witness :
    call_bedrock invokeDown "p" = .error (.transport "endpoint unreachable") ∧
    call_bedrock invokeOk "p" = .ok "df" := by
  obtain ⟨-, -, -, -, -, herr, -, -⟩ := C9_bedrock_contract invokeDown "p"
  obtain ⟨-, -, -, -, -, -, hok, -⟩ := C9_bedrock_contract invokeOk "p"
  exact ⟨herr _ rfl,
         (hok okResp (.jobj [("text", .jstr "df")]) [] "df" rfl rfl rfl).trans rfl⟩
